import Mathlib

/-!
Shallow embedding of `chatnoir_pyterrier/retrieve.py`, the single source
module of the chatnoir-pyterrier adapter.  Python dicts become association
lists, pandas data frames become a column list plus a row list, the lazy
result stream of the external search client becomes a plain list, and the
external client itself is a parameter (a structure of functions).  Errors
raised by the Python code are modelled with `Except`, and alongside each
transform result we return the number of search requests that were issued
to the external client.
-/

set_option autoImplicit false

namespace ChatNoir

/-- A Python value as it occurs in the rows handled by the adapter. -/
inductive PyVal where
  | s (v : String)
  | i (v : Int)
  | b (v : Bool)
  | none
  deriving DecidableEq, BEq, Repr

/-- The search indices of the external API (`chatnoir_api.Index`). -/
inductive PyIndex where
  | clueweb09
  | clueweb12
  | clueweb22
  | commoncrawl1511
  | commoncrawl1704
  deriving DecidableEq, BEq, Repr

/-- `Index.name`, used as the sort key in `ChatNoirRetrieve.__hash__`. -/
def PyIndex.name : PyIndex → String
  | .clueweb09 => "ClueWeb09"
  | .clueweb12 => "ClueWeb12"
  | .clueweb22 => "ClueWeb22"
  | .commoncrawl1511 => "CommonCrawl1511"
  | .commoncrawl1704 => "CommonCrawl1704"

/-- `Index.value`, written into the `index` output column. -/
def PyIndex.val : PyIndex → String
  | .clueweb09 => "cw09"
  | .clueweb12 => "cw12"
  | .clueweb22 => "cw22"
  | .commoncrawl1511 => "cc1511"
  | .commoncrawl1704 => "cc1704"

/-!
The `Feature` enumeration is a Python `Flag`: each member is a bit mask and
composite members are bitwise ORs of the atomic ones.  We embed the members
as their `Nat` bit masks, exactly as `auto()` assigns them in source order.
-/

def Feature.NONE : Nat := 0
def Feature.UUID : Nat := 1
def Feature.INDEX : Nat := 2
def Feature.TARGET_HOSTNAME : Nat := 4
def Feature.TARGET_URI : Nat := 8
def Feature.TARGET : Nat := Feature.TARGET_HOSTNAME ||| Feature.TARGET_URI
def Feature.PAGE_RANK : Nat := 16
def Feature.SPAM_RANK : Nat := 32
def Feature.RANKS : Nat := Feature.PAGE_RANK ||| Feature.SPAM_RANK
def Feature.TITLE_HIGHLIGHTED : Nat := 64
def Feature.TITLE_TEXT : Nat := 128
def Feature.TITLE : Nat := Feature.TITLE_HIGHLIGHTED ||| Feature.TITLE_TEXT
def Feature.SNIPPET_HIGHLIGHTED : Nat := 256
def Feature.SNIPPET_TEXT : Nat := 512
def Feature.SNIPPET : Nat := Feature.SNIPPET_HIGHLIGHTED ||| Feature.SNIPPET_TEXT
def Feature.EXPLANATION : Nat := 1024
def Feature.HTML : Nat := 2048
def Feature.HTML_PLAIN : Nat := 4096
def Feature.ALL : Nat :=
  Feature.UUID ||| Feature.INDEX ||| Feature.TARGET ||| Feature.RANKS |||
  Feature.TITLE ||| Feature.SNIPPET ||| Feature.EXPLANATION |||
  Feature.HTML ||| Feature.HTML_PLAIN

/-- The `features` field is `Union[Feature, Set[Feature]]`: either a single
flag value or a Python set of flag values (the set is kept as the list of
its distinct declared elements). -/
inductive FeaturesConfig where
  | single (f : Nat)
  | set (s : List Nat)
  deriving DecidableEq, BEq, Repr

/-- The `index` field is `Union[Index, Set[Index]]`. -/
inductive IndexConfig where
  | single (i : PyIndex)
  | set (s : List PyIndex)
  deriving DecidableEq, BEq, Repr

/-- `x in self.features`: for a single `Feature` value this is Python `Flag`
containment (`x.value & f.value == x.value`); for a `Set[Feature]` it is
plain set membership of the flag value. -/
def featMem (x : Nat) : FeaturesConfig → Bool
  | .single f => x &&& f == x
  | .set s => s.contains x

/-- The `ChatNoirRetrieve` dataclass configuration fields. -/
structure ChatNoirRetrieve where
  api_key : String
  index : IndexConfig
  phrases : Bool
  slop : Nat
  features : FeaturesConfig
  filter_unknown : Bool
  num_results : Option Nat
  page_size : Nat
  retries : Nat
  backoff_seconds : Int
  verbose : Bool
  deriving DecidableEq, Repr

/-- A search result record of the external client.  `SearchResult` and
`PhraseSearchResult` expose the same fields used by the adapter, so one
type models both.  The on-demand `html_contents(plain=...)` fetches are
modelled by the two strings they return. -/
structure SearchResult where
  trec_id : Option String
  uuid : String
  score : Int
  index : PyIndex
  target_hostname : String
  target_uri : String
  page_rank : Int
  spam_rank : Int
  title_html : String
  title_text : String
  snippet_html : String
  snippet_text : String
  explanation : PyVal
  html_full : String
  html_plain : String
  deriving DecidableEq, Repr

/-- A row dict: association list from column name to value, in insertion
order. -/
abbrev Row : Type := List (String × PyVal)

/-- Dict lookup (`row[key]` returns `some` value or is a `KeyError`). -/
def lookupRow (r : Row) (k : String) : Option PyVal :=
  (List.find? (fun p => p.1 == k) r).map Prod.snd

/-- Dict update `row[key] = v`: overwrite in place if the key exists,
append otherwise (Python dicts keep the original key position). -/
def rowSet (r : Row) (k : String) (v : PyVal) : Row :=
  if List.any r (fun p => p.1 == k) then
    List.map (fun p => if p.1 == k then (k, v) else p) r
  else
    r ++ [(k, v)]

/-- The keys of a row dict, in order. -/
def rowKeys (r : Row) : List String :=
  List.map Prod.fst r

/-- `Optional[str]` to a Python value (absent ids become `None`). -/
def pyOfOptStr : Option String → PyVal
  | Option.none => PyVal.none
  | Option.some s => PyVal.s s

/-- `ChatNoirRetrieve._merge_result`: extend a topic row with `docno`,
`score`, and one column per feature flag found in `self.features` (note:
the raw configured `features` field, not the reduced union). -/
def mergeResult (c : ChatNoirRetrieve) (row : Row) (result : SearchResult) : Row :=
  let row := rowSet row "docno" (pyOfOptStr result.trec_id)
  let row := rowSet row "score" (PyVal.i result.score)
  let row := if featMem Feature.UUID c.features then
    rowSet row "uuid" (PyVal.s result.uuid) else row
  let row := if featMem Feature.INDEX c.features then
    rowSet row "index" (PyVal.s result.index.val) else row
  let row := if featMem Feature.TARGET_HOSTNAME c.features then
    rowSet row "target_hostname" (PyVal.s result.target_hostname) else row
  let row := if featMem Feature.TARGET_URI c.features then
    rowSet row "target_uri" (PyVal.s result.target_uri) else row
  let row := if featMem Feature.PAGE_RANK c.features then
    rowSet row "page_rank" (PyVal.i result.page_rank) else row
  let row := if featMem Feature.SPAM_RANK c.features then
    rowSet row "spam_rank" (PyVal.i result.spam_rank) else row
  let row := if featMem Feature.TITLE_HIGHLIGHTED c.features then
    rowSet row "title_highlighted" (PyVal.s result.title_html) else row
  let row := if featMem Feature.TITLE_TEXT c.features then
    rowSet row "title_text" (PyVal.s result.title_text) else row
  let row := if featMem Feature.SNIPPET_HIGHLIGHTED c.features then
    rowSet row "snippet_highlighted" (PyVal.s result.snippet_html) else row
  let row := if featMem Feature.SNIPPET_TEXT c.features then
    rowSet row "snippet_text" (PyVal.s result.snippet_text) else row
  let row := if featMem Feature.EXPLANATION c.features then
    rowSet row "explanation" result.explanation else row
  let row := if featMem Feature.HTML c.features then
    rowSet row "html" (PyVal.s result.html_full) else row
  let row := if featMem Feature.HTML_PLAIN c.features then
    rowSet row "html_plain" (PyVal.s result.html_plain) else row
  row

/-- A pandas data frame: its column labels and its rows (each row a dict
restricted to those labels). -/
structure DataFrame where
  cols : List String
  rows : List Row
  deriving DecidableEq, Repr

/-- `DataFrame([dicts])`: the columns are the keys of the dicts in first
occurrence order. -/
def dfOfRows (rows : List Row) : DataFrame :=
  DataFrame.mk (List.dedup (List.flatten (List.map rowKeys rows))) rows

/-- The external search client (`chatnoir_api.v1.search` and
`chatnoir_api.v1.search_phrases`), a collaborator passed in as data.
`search` takes the query, the page size and the explain flag;
`searchPhrases` additionally takes the slop. -/
structure Client where
  search : PyVal → Nat → Bool → List SearchResult
  searchPhrases : PyVal → Nat → Nat → Bool → List SearchResult

/-- Errors raised inside `transform` / `_transform_query` (all of them are
`RuntimeError` or a built-in Python exception). -/
inductive Err where
  | notDataFrame
  | missingColumns
  | singleQuery
  | keyError
  | reduceEmpty
  deriving DecidableEq, Repr

/-- Equality of `Except` results is decidable when both components are. -/
instance exceptDecEq {e a : Type} [DecidableEq e] [DecidableEq a] :
    DecidableEq (Except e a) := fun x y =>
  match x, y with
  | Except.ok u, Except.ok v =>
    if h : u = v then Decidable.isTrue (by rw [h])
    else Decidable.isFalse (fun hh => by cases hh; exact h rfl)
  | Except.error u, Except.error v =>
    if h : u = v then Decidable.isTrue (by rw [h])
    else Decidable.isFalse (fun hh => by cases hh; exact h rfl)
  | Except.ok _, Except.error _ => Decidable.isFalse (fun hh => by cases hh)
  | Except.error _, Except.ok _ => Decidable.isFalse (fun hh => by cases hh)

/-- Lines 113 to 117: the page size handed to the client is the minimum of
the configured page size and the result cap when a cap is set, and the
configured page size otherwise. -/
def effPageSize (c : ChatNoirRetrieve) : Nat :=
  match c.num_results with
  | Option.some n => min c.page_size n
  | Option.none => c.page_size

/-- Lines 119 to 126: a `Set[Feature]` is folded into a single flag value
with `reduce` over bitwise OR; `reduce` of an empty iterable with no
initial value raises a `TypeError`.  A single `Feature` passes through. -/
def reduceFeatures : FeaturesConfig → Except Err Nat
  | .single f => Except.ok f
  | .set [] => Except.error Err.reduceEmpty
  | .set (f :: fs) => Except.ok (List.foldl (fun a b => a ||| b) f fs)

/-- Lines 131 to 147: mutually exclusive choice of plain or phrase search,
both invoked with the computed page size and explain flag. -/
def rawResults (c : ChatNoirRetrieve) (k : Client) (query : PyVal)
    (page_size : Nat) (explain : Bool) : List SearchResult :=
  if c.phrases then
    k.searchPhrases query c.slop page_size explain
  else
    k.search query page_size explain

/-- Lines 149 to 156: when `filter_unknown` is set, drop the results whose
TREC id is missing. -/
def filterStage (c : ChatNoirRetrieve) (results : List SearchResult) :
    List SearchResult :=
  if c.filter_unknown then
    List.filter (fun result => result.trec_id.isSome) results
  else
    results

/-- Lines 158 to 159: when a result cap is configured, `islice` the stream
to that many results. -/
def capStage (c : ChatNoirRetrieve) (results : List SearchResult) :
    List SearchResult :=
  match c.num_results with
  | Option.some n => List.take n results
  | Option.none => results

/-- `ChatNoirRetrieve._transform_query`, with the count of search requests
issued to the external client as second component.  The one-row guard, the
`row["query"]` lookup, the page size, the feature reduction and the explain
flag all precede the search call, exactly as in the source. -/
def transformQuery (c : ChatNoirRetrieve) (k : Client) (topic : DataFrame) :
    Except Err DataFrame × Nat :=
  if topic.rows.length ≠ 1 then (Except.error Err.singleQuery, 0)
  else
    let row := topic.rows.headD []
    match lookupRow row "query" with
    | Option.none => (Except.error Err.keyError, 0)
    | Option.some query =>
      let page_size := effPageSize c
      match reduceFeatures c.features with
      | Except.error e => (Except.error e, 0)
      | Except.ok feats =>
        let explain := Feature.EXPLANATION &&& feats == Feature.EXPLANATION
        let results := rawResults c k query page_size explain
        let results := capStage c (filterStage c results)
        (Except.ok (dfOfRows (List.map (mergeResult c row) results)), 1)

/-- `row["qid"]` of a topic row (used as the grouping key). -/
def rowQid (r : Row) : PyVal :=
  (lookupRow r "qid").getD PyVal.none

/-- `row["score"]` of a result row, as an integer score. -/
def rowScore (r : Row) : Int :=
  match lookupRow r "score" with
  | Option.some (PyVal.i z) => z
  | _ => 0

/-- `groupby(...).apply(f)` step: run the per-query transform on each group
in order, propagating the first error and summing the search calls made. -/
def applyGroups (c : ChatNoirRetrieve) (k : Client) :
    List DataFrame → Except Err (List DataFrame) × Nat
  | [] => (Except.ok [], 0)
  | g :: gs =>
    match transformQuery c k g with
    | (Except.error e, n) => (Except.error e, n)
    | (Except.ok d, n) =>
      match applyGroups c k gs with
      | (Except.error e, m) => (Except.error e, n + m)
      | (Except.ok ds, m) => (Except.ok (d :: ds), n + m)

/-- Insert a row into a score-descending sorted list of rows (stable). -/
def insertDesc (r : Row) : List Row → List Row
  | [] => [r]
  | x :: xs => if rowScore x < rowScore r then r :: x :: xs else x :: insertDesc r xs

/-- Sort rows by score, descending (a model of
`sort_values(by=["score"], ascending=False)`). -/
def sortRowsDesc : List Row → List Row
  | [] => []
  | x :: xs => insertDesc x (sortRowsDesc xs)

/-- `sort_values(by=["score"], ascending=False)` on a frame: returns a new
frame with the rows reordered, leaving the receiver unchanged. -/
def sortValuesScoreDesc (d : DataFrame) : DataFrame :=
  DataFrame.mk d.cols (sortRowsDesc d.rows)

/-- Modelled from the spec: `pyterrier.model.add_ranks` is not part of this
repository.  Per the spec it assigns a rank column per query group, ranks
starting at 0 and ordered by descending score within the group, leaving the
other columns (and the row order) untouched. -/
def add_ranks (d : DataFrame) : DataFrame :=
  let rows := d.rows
  let ranked := List.map (fun i =>
    let r := List.getD rows i []
    let g := rowQid r
    let higher := List.countP
      (fun x => rowQid x == g && decide (rowScore r < rowScore x)) rows
    let earlierEq := List.countP
      (fun x => rowQid x == g && rowScore x == rowScore r) (List.take i rows)
    rowSet r "rank" (PyVal.i (Int.ofNat (higher + earlierEq))))
    (List.range rows.length)
  dfOfRows ranked

/-- The input of `transform`: either a pandas data frame or some value of
another type (rejected by the `isinstance` check). -/
inductive PyInput where
  | df (d : DataFrame)
  | notDataFrame
  deriving Repr

/-- `ChatNoirRetrieve.transform`, with the count of search requests issued
as second component.  Groups rows by query id in first-seen order, applies
the per-query transform per group, concatenates, then computes the
score-descending sort WITHOUT assigning it (line 195 of the source
discards the sorted frame) and finally adds ranks. -/
def transform (c : ChatNoirRetrieve) (k : Client) (input : PyInput) :
    Except Err DataFrame × Nat :=
  match input with
  | PyInput.notDataFrame => (Except.error Err.notDataFrame, 0)
  | PyInput.df topics =>
    if !(topics.cols.contains "qid" && topics.cols.contains "query") then
      (Except.error Err.missingColumns, 0)
    else if topics.rows.length == 0 then
      transformQuery c k topics
    else
      let keys := List.dedup (List.map rowQid topics.rows)
      let groups := List.map
        (fun v => DataFrame.mk topics.cols
          (List.filter (fun r => rowQid r == v) topics.rows)) keys
      match applyGroups c k groups with
      | (Except.error e, n) => (Except.error e, n)
      | (Except.ok ds, n) =>
        let retrieved := dfOfRows (List.flatten (List.map DataFrame.rows ds))
        let _sorted := sortValuesScoreDesc retrieved
        (Except.ok (add_ranks retrieved), n)

/-- Errors raised inside `ChatNoirRetrieve.__hash__`. -/
inductive PyErr where
  | typeError
  deriving DecidableEq, Repr

/-- `sorted(features)` over a `Set[Feature]`: `Feature` is a `Flag` and
defines no ordering, so any comparison between two members raises a
`TypeError`; sorting a set with at most one element performs no comparison
and succeeds. -/
def pySortedFeatures (s : List Nat) : Except PyErr (List Nat) :=
  if s.length ≤ 1 then Except.ok s else Except.error PyErr.typeError

/-- `sorted(index_set, key=lambda index: index.name)`: index names are
strings, so this sort succeeds and is canonical. -/
def pySortedIndexNames (s : List PyIndex) : List String :=
  List.mergeSort (List.dedup (List.map PyIndex.name s)) (fun a b => a ≤ b)

/-- The tuple slot holding the index field inside the hashed tuple: the
plain `Index` for a single value, `tuple(sorted(...))` for a set. -/
def indexHashSlot : IndexConfig → String ⊕ List String
  | .single i => Sum.inl i.name
  | .set s => Sum.inr (pySortedIndexNames s)

/-- The canonical content of the tuple that `ChatNoirRetrieve.__hash__`
feeds to the opaque Python `hash` (equal tuples give equal hashes, so we
keep the tuple itself, one field per slot). -/
structure HashKey where
  api_key : String
  index : String ⊕ List String
  phrases : Bool
  slop : Nat
  features : Nat
  filter_unknown : Bool
  num_results : Option Nat
  page_size : Nat
  retries : Nat
  backoff_seconds : Int
  verbose : Bool
  deriving DecidableEq, Repr

/-- `ChatNoirRetrieve.__hash__`.  For a `Set[Feature]` the source builds
`list(sorted(features))`: `sorted` already raises a `TypeError` on two or
more flags, and even a successfully built `list` is unhashable inside a
hashed tuple, so the feature-set branch always raises. -/
def pyHashKey (c : ChatNoirRetrieve) : Except PyErr HashKey := do
  let featSlot : Nat ← match c.features with
    | .set s => do
      let _ ← pySortedFeatures s
      Except.error PyErr.typeError
    | .single f => pure f
  Except.ok (HashKey.mk c.api_key (indexHashSlot c.index) c.phrases c.slop
    featSlot c.filter_unknown c.num_results c.page_size c.retries
    c.backoff_seconds c.verbose)

/-- Python set equality is extensional: same members, order ignored. -/
def sameMembers {α : Type} [BEq α] (a b : List α) : Bool :=
  List.all a (fun x => b.contains x) && List.all b (fun x => a.contains x)

/-- `==` on the `index` field (`Union[Index, Set[Index]]`). -/
def indexEq : IndexConfig → IndexConfig → Bool
  | .single a, .single b => a == b
  | .set a, .set b => sameMembers a b
  | _, _ => false

/-- `==` on the `features` field (`Union[Feature, Set[Feature]]`). -/
def featuresEq : FeaturesConfig → FeaturesConfig → Bool
  | .single a, .single b => a == b
  | .set a, .set b => sameMembers a b
  | _, _ => false

/-- The dataclass-generated `__eq__`: field-by-field comparison, with
Python set semantics on the set-valued fields. -/
def pyEq (a b : ChatNoirRetrieve) : Bool :=
  a.api_key == b.api_key && indexEq a.index b.index &&
  a.phrases == b.phrases && a.slop == b.slop &&
  featuresEq a.features b.features &&
  a.filter_unknown == b.filter_unknown &&
  a.num_results == b.num_results && a.page_size == b.page_size &&
  a.retries == b.retries && a.backoff_seconds == b.backoff_seconds &&
  a.verbose == b.verbose

/-- A list of scores is in descending order. -/
def isDescending : List Int → Bool
  | [] => true
  | [_] => true
  | a :: b :: t => b ≤ a && isDescending (b :: t)

/-- The scores of the rows of a transform result, in row order (empty when
the transform raised). -/
def scoresOf (p : Except Err DataFrame × Nat) : List Int :=
  match p.1 with
  | Except.ok d => List.map rowScore d.rows
  | Except.error _ => []

/-- The input fails the shape checks of `transform`: it is not a data
frame, or the frame lacks the qid or the query column. -/
def badShape : PyInput → Bool
  | PyInput.notDataFrame => true
  | PyInput.df d => !(d.cols.contains "qid" && d.cols.contains "query")

/-- The error is one of the two input-shape errors of `transform`. -/
def isShapeErr (e : Err) : Bool :=
  e == Err.notDataFrame || e == Err.missingColumns

/-- The result is one of the two input-shape errors of `transform`. -/
def isShapeError (x : Except Err DataFrame) : Bool :=
  match x with
  | Except.error e => isShapeErr e
  | Except.ok _ => false

/-!
Concrete fixtures used to evaluate the embedded code on specific inputs.
-/

/-- A known result with score 1. -/
def resA : SearchResult :=
  ⟨Option.some "d1", "u1", 1, PyIndex.clueweb09, "host1", "uri1", 7, 8,
    "th1", "tt1", "sh1", "st1", PyVal.none, "html1", "plain1"⟩

/-- A known result with score 5. -/
def resB : SearchResult :=
  { resA with trec_id := Option.some "d2", uuid := "u2", score := 5 }

/-- A result whose TREC id is absent. -/
def resU : SearchResult :=
  { resA with trec_id := Option.none, uuid := "u3", score := 3 }

/-- A client returning one score-1 result for query "a" and one score-5
result for anything else. -/
def clientAB : Client :=
  ⟨fun q _ _ => if q == PyVal.s "a" then [resA] else [resB],
   fun _ _ _ _ => []⟩

/-- The default-like configuration used by the fixtures. -/
def baseCfg : ChatNoirRetrieve :=
  ⟨"key", IndexConfig.single PyIndex.clueweb09, false, 0,
    FeaturesConfig.single Feature.NONE, false, Option.some 10, 100, 5, 3,
    false⟩

/-- A two-query topics frame (distinct query ids). -/
def topicsTwo : DataFrame :=
  ⟨["qid", "query"],
    [[("qid", PyVal.s "q1"), ("query", PyVal.s "a")],
     [("qid", PyVal.s "q2"), ("query", PyVal.s "b")]]⟩

/-- A topics frame with query ids q1, q1, q2. -/
def topicsDup : DataFrame :=
  ⟨["qid", "query"],
    [[("qid", PyVal.s "q1"), ("query", PyVal.s "a")],
     [("qid", PyVal.s "q1"), ("query", PyVal.s "b")],
     [("qid", PyVal.s "q2"), ("query", PyVal.s "c")]]⟩

/-- A topics frame with the required columns and zero rows. -/
def topicsEmpty : DataFrame :=
  ⟨["qid", "query"], []⟩

/-- A one-row topic, as a group handed to the per-query transform. -/
def topicOne : DataFrame :=
  ⟨["qid", "query"], [[("qid", PyVal.s "q1"), ("query", PyVal.s "a")]]⟩

/-- Features configured as the set of two atomic flags. -/
def cfgSetUI : ChatNoirRetrieve :=
  { baseCfg with features := FeaturesConfig.set [Feature.UUID, Feature.INDEX] }

/-- The same set of flags declared in the other order. -/
def cfgSetIU : ChatNoirRetrieve :=
  { baseCfg with features := FeaturesConfig.set [Feature.INDEX, Feature.UUID] }

/-- Features configured as a one-element set of flags. -/
def cfgSetU : ChatNoirRetrieve :=
  { baseCfg with features := FeaturesConfig.set [Feature.UUID] }

/-- Features configured as a set holding the composite TARGET flag. -/
def cfgSetTarget : ChatNoirRetrieve :=
  { baseCfg with features := FeaturesConfig.set [Feature.TARGET] }

/-- Features configured as the single composite TARGET flag value. -/
def cfgFlagTarget : ChatNoirRetrieve :=
  { baseCfg with features := FeaturesConfig.single Feature.TARGET }

/-- Filtering of unknown documents switched on. -/
def cfgFilter : ChatNoirRetrieve :=
  { baseCfg with filter_unknown := true }

/-- A result cap of two. -/
def cfgCap2 : ChatNoirRetrieve :=
  { baseCfg with num_results := Option.some 2 }

/-- Features configured as the empty set of flags. -/
def cfgEmptyFeat : ChatNoirRetrieve :=
  { baseCfg with features := FeaturesConfig.set [] }

/-- A client agreeing with `clientAB` at page size 10 (the effective page
size of `baseCfg`) and returning nothing at any other page size. -/
def clientAB2 : Client :=
  ⟨fun q ps ex => if ps == 10 then clientAB.search q ps ex else [],
   fun q sl ps ex => if ps == 10 then clientAB.searchPhrases q sl ps ex else []⟩

/-- A three-element result stream. -/
def rs3 : List SearchResult := [resA, resB, resU]

/-!
Helper lemmas shared by the claim theorems.
-/

theorem reduceFeatures_error_eq (fc : FeaturesConfig) (e : Err)
    (h : reduceFeatures fc = Except.error e) : e = Err.reduceEmpty := by
  cases fc with
  | single f => simp [reduceFeatures] at h
  | set s =>
    cases s with
    | nil =>
      simp [reduceFeatures] at h
      exact h.symm
    | cons a t => simp [reduceFeatures] at h

theorem transformQuery_error_not_shape (c : ChatNoirRetrieve) (k : Client)
    (topic : DataFrame) (e : Err)
    (h : (transformQuery c k topic).1 = Except.error e) :
    isShapeErr e = false := by
  unfold transformQuery at h
  split at h
  · simp at h
    subst h
    rfl
  · simp only [] at h
    split at h
    · simp at h
      subst h
      rfl
    · split at h
      · rename_i e' he'
        simp at h
        subst h
        rw [reduceFeatures_error_eq _ _ he']
        rfl
      · simp at h

theorem applyGroups_error_not_shape (c : ChatNoirRetrieve) (k : Client)
    (gs : List DataFrame) (e : Err)
    (h : (applyGroups c k gs).1 = Except.error e) :
    isShapeErr e = false := by
  induction gs with
  | nil => simp [applyGroups] at h
  | cons g t ih =>
    unfold applyGroups at h
    split at h
    · rename_i e' n' hq
      simp at h
      subst h
      exact transformQuery_error_not_shape c k g e' (by rw [hq])
    · split at h
      · rename_i e' m' hr
        simp at h
        subst h
        exact ih (by rw [hr])
      · simp at h

/-!
Claim theorems.
-/

/-- Claim C1: the spec demands that the score-descending sort of the
concatenated table be assigned to the working table so that the returned
rows are in descending score order.  The source computes the sort at line
195 and discards it, so on a batch whose concatenated scores come out as
[1, 5] the returned table keeps that order, which is not descending (the
discarded sorted view would have been [5, 1]). -/
theorem transform_sort_result_discarded :
    scoresOf (transform baseCfg clientAB (PyInput.df topicsTwo)) = [1, 5] ∧
    isDescending [1, 5] = false ∧
    List.map rowScore
      (sortRowsDesc (List.map (fun r => [("score", PyVal.i (rowScore r))])
        [[("score", PyVal.i 1)], [("score", PyVal.i 5)]])) = [5, 1] := by
  decide

/-- Claim C2: the spec says a zero-row input with the required columns
produces an empty result table via one direct per-query call.  The source
does make that call, but the one-row guard of the per-query transform sees
zero rows and raises, so the batch transform raises instead of returning an
empty table (and no search request is made). -/
theorem transform_empty_topics_raises :
    transform baseCfg clientAB (PyInput.df topicsEmpty) =
      (Except.error Err.singleQuery, 0) := by
  decide

/-- Claim C3: the spec says rows sharing a query id are grouped and the
batch succeeds.  The source groups them, but the per-query transform
rejects any group that does not have exactly one ROW, so the two-row q1
group makes the whole batch raise (before any search request). -/
theorem transform_duplicate_qids_raises :
    transform baseCfg clientAB (PyInput.df topicsDup) =
      (Except.error Err.singleQuery, 0) := by
  decide

/-- Claim C4: the spec demands order-independent equality and hashing of
configurations with set-valued fields.  Equality does hold, but hashing a
configuration whose features field is a set always raises a TypeError:
sorted() compares Flag members, which define no ordering, and the
list(...) built from at most one member is unhashable inside the hashed
tuple.  So the hash of such configurations never succeeds. -/
theorem hash_feature_set_raises :
    pyEq cfgSetUI cfgSetIU = true ∧
    pyHashKey cfgSetUI = Except.error PyErr.typeError ∧
    pyHashKey cfgSetIU = Except.error PyErr.typeError ∧
    pyHashKey cfgSetU = Except.error PyErr.typeError := by
  decide

/-- Claim C5: the spec says a group flag such as TARGET contributes the
columns of all its member flags also when the features are configured as a
set of flags.  The flattener tests membership against the raw configured
value, so with features = set containing TARGET the set-membership test
finds neither TARGET_HOSTNAME nor TARGET_URI and the target columns are
missing, while the single-flag configuration TARGET does produce them. -/
theorem merge_set_group_flag_drops_columns :
    rowKeys (mergeResult cfgSetTarget [("qid", PyVal.s "q1")] resA) =
      ["qid", "docno", "score"] ∧
    rowKeys (mergeResult cfgFlagTarget [("qid", PyVal.s "q1")] resA) =
      ["qid", "docno", "score", "target_hostname", "target_uri"] := by
  decide

theorem rawResults_eq_of_agree (c : ChatNoirRetrieve) (k₁ k₂ : Client)
    (q : PyVal) (ex : Bool)
    (hs : k₁.search q (effPageSize c) ex = k₂.search q (effPageSize c) ex)
    (hp : k₁.searchPhrases q c.slop (effPageSize c) ex =
      k₂.searchPhrases q c.slop (effPageSize c) ex) :
    rawResults c k₁ q (effPageSize c) ex = rawResults c k₂ q (effPageSize c) ex := by
  unfold rawResults
  split
  · exact hp
  · exact hs

/-- Claim C6: the page size handed to the external client is
min(page_size, num_results) when a result cap is set and page_size when it
is not; the per-query transform consults the client only at that effective
page size, so two clients that agree there produce identical transforms. -/
theorem transform_query_page_size (c : ChatNoirRetrieve) (k₁ k₂ : Client)
    (topic : DataFrame)
    (hs : ∀ q ex, k₁.search q (effPageSize c) ex = k₂.search q (effPageSize c) ex)
    (hp : ∀ q ex, k₁.searchPhrases q c.slop (effPageSize c) ex =
      k₂.searchPhrases q c.slop (effPageSize c) ex) :
    transformQuery c k₁ topic = transformQuery c k₂ topic ∧
    (∀ n, c.num_results = Option.some n → effPageSize c = min c.page_size n) ∧
    (c.num_results = Option.none → effPageSize c = c.page_size) := by
  refine ⟨?_, fun n h => by rw [effPageSize, h], fun h => by rw [effPageSize, h]⟩
  unfold transformQuery
  split
  · rfl
  · simp only []
    cases lookupRow ((topic.rows.headD [])) "query" with
    | none => rfl
    | some q =>
      cases reduceFeatures c.features with
      | error e => rfl
      | ok feats =>
        simp only []
        rw [rawResults_eq_of_agree c k₁ k₂ q
          (Feature.EXPLANATION &&& feats == Feature.EXPLANATION)
          (hs q _) (hp q _)]

/-- Witness for claim C6 at a concrete configuration: `baseCfg` caps at 10
with page size 100, so the effective page size is 10, and a client that
matches `clientAB` only at page size 10 yields the same transform. -/
theorem transform_query_page_size_witness :
    transformQuery baseCfg clientAB topicOne =
      transformQuery baseCfg clientAB2 topicOne :=
  (transform_query_page_size baseCfg clientAB clientAB2 topicOne
    (fun _ _ => rfl) (fun _ _ => rfl)).1

/-- Claim C7: with filter_unknown enabled the filtering stage keeps exactly
the results whose document id is present (all and only), it runs before the
cap stage truncates (so everything surviving the cap has a known id), and
with the flag disabled the stage is the identity, preserving unknown
results. -/
theorem filter_unknown_all_and_only (c : ChatNoirRetrieve)
    (rs : List SearchResult) :
    (c.filter_unknown = true →
      (∀ r, r ∈ filterStage c rs ↔ (r ∈ rs ∧ r.trec_id.isSome = true)) ∧
      (∀ r, r ∈ capStage c (filterStage c rs) → r.trec_id.isSome = true)) ∧
    (c.filter_unknown = false → filterStage c rs = rs) := by
  constructor
  · intro h
    have hmem : ∀ r, r ∈ filterStage c rs ↔ (r ∈ rs ∧ r.trec_id.isSome = true) := by
      intro r
      simp only [filterStage, h, if_true]
      exact List.mem_filter
    refine ⟨hmem, ?_⟩
    intro r hr
    have hr2 : r ∈ filterStage c rs := by
      unfold capStage at hr
      split at hr
      · exact List.mem_of_mem_take hr
      · exact hr
    exact ((hmem r).mp hr2).2
  · intro h
    simp [filterStage, h]

/-- Witness for claim C7 on the stream [resA, resB, resU]: with filtering
on, the known result resA stays and the unknown result resU is dropped;
with filtering off the stream is untouched. -/
theorem filter_unknown_all_and_only_witness :
    (resA ∈ filterStage cfgFilter rs3 ∧ resU ∉ filterStage cfgFilter rs3) ∧
    filterStage baseCfg rs3 = rs3 := by
  refine ⟨⟨?_, ?_⟩, ?_⟩
  · exact (((filter_unknown_all_and_only cfgFilter rs3).1 rfl).1 resA).mpr
      ⟨by decide, rfl⟩
  · intro hmem
    have hu := (((filter_unknown_all_and_only cfgFilter rs3).1 rfl).1 resU).mp hmem
    exact absurd hu.2 (by decide)
  · exact (filter_unknown_all_and_only baseCfg rs3).2 rfl

/-- Claim C8: with a configured result cap n the cap stage is exactly
List.take n (an order-preserving prefix), it returns at most n results,
it returns the whole stream when fewer than n results are available, and
consequently every successful per-query transform has at most n rows. -/
theorem result_cap_truncates (c : ChatNoirRetrieve) (n : Nat)
    (h : c.num_results = Option.some n) (rs : List SearchResult) :
    capStage c rs = List.take n rs ∧
    (capStage c rs).length ≤ n ∧
    (rs.length ≤ n → capStage c rs = rs) ∧
    (∀ k topic d m, transformQuery c k topic = (Except.ok d, m) →
      d.rows.length ≤ n) := by
  have hcap : ∀ xs : List SearchResult, capStage c xs = List.take n xs := by
    intro xs
    simp [capStage, h]
  refine ⟨hcap rs, ?_, ?_, ?_⟩
  · rw [hcap rs, List.length_take]
    exact min_le_left _ _
  · intro hlen
    rw [hcap rs]
    exact List.take_of_length_le hlen
  · intro k topic d m heq
    unfold transformQuery at heq
    split at heq
    · simp at heq
    · simp only [] at heq
      split at heq
      · simp at heq
      · split at heq
        · simp at heq
        · simp only [Prod.mk.injEq, Except.ok.injEq] at heq
          obtain ⟨hd, hm⟩ := heq
          subst hd
          simp only [dfOfRows, List.length_map]
          rw [hcap]
          rw [List.length_take]
          exact min_le_left _ _

/-- Witness for claim C8 at cap 2 on the three-element stream rs3: the cap
stage yields the two-element prefix. -/
theorem result_cap_truncates_witness :
    capStage cfgCap2 rs3 = [resA, resB] ∧ (capStage cfgCap2 rs3).length ≤ 2 :=
  ⟨((result_cap_truncates cfgCap2 2 rfl rs3).1).trans rfl,
   (result_cap_truncates cfgCap2 2 rfl rs3).2.1⟩

theorem transform_good_shape_no_shape_error (c : ChatNoirRetrieve)
    (k : Client) (d : DataFrame)
    (hcols : (d.cols.contains "qid" && d.cols.contains "query") = true) :
    isShapeError (transform c k (PyInput.df d)).1 = false := by
  unfold transform
  simp only [hcols, Bool.not_true, Bool.false_eq_true, if_false]
  split
  · cases ht : (transformQuery c k d).1 with
    | ok v => simp [isShapeError, ht]
    | error e =>
      simp only [isShapeError, ht]
      exact transformQuery_error_not_shape c k d e ht
  · split
    · rename_i e n hag
      simp only [isShapeError]
      exact applyGroups_error_not_shape c k _ e (by rw [hag])
    · rfl

/-- Claim C9: the batch transform yields one of the two input-shape errors
exactly when the input is not a data frame or lacks the qid or query
column, and in those cases no search request is made. -/
theorem transform_shape_errors (c : ChatNoirRetrieve) (k : Client)
    (inp : PyInput) :
    (isShapeError (transform c k inp).1 = true ↔ badShape inp = true) ∧
    (badShape inp = true → (transform c k inp).2 = 0) := by
  cases inp with
  | notDataFrame =>
    exact ⟨by simp [transform, badShape, isShapeError, isShapeErr],
      fun _ => rfl⟩
  | df d =>
    by_cases hcols : (d.cols.contains "qid" && d.cols.contains "query") = true
    · constructor
      · constructor
        · intro hshape
          rw [transform_good_shape_no_shape_error c k d hcols] at hshape
          exact absurd hshape (by simp)
        · intro hbad
          simp only [badShape] at hbad
          rw [hcols] at hbad
          exact absurd hbad (by simp)
      · intro hbad
        simp only [badShape] at hbad
        rw [hcols] at hbad
        exact absurd hbad (by simp)
    · have hc : (d.cols.contains "qid" && d.cols.contains "query") = false :=
        Bool.eq_false_iff.mpr hcols
      have htr : transform c k (PyInput.df d) =
          (Except.error Err.missingColumns, 0) := by
        unfold transform
        dsimp only
        rw [hc]
        rfl
      constructor
      · constructor
        · intro _
          simp only [badShape]
          rw [hc]
          rfl
        · intro _
          rw [htr]
          rfl
      · intro _
        rw [htr]

/-- Witness for claim C9 at a non-frame input: the shape error is raised
and the client is never called. -/
theorem transform_shape_errors_witness :
    isShapeError (transform baseCfg clientAB PyInput.notDataFrame).1 = true ∧
    (transform baseCfg clientAB PyInput.notDataFrame).2 = 0 :=
  ⟨(transform_shape_errors baseCfg clientAB PyInput.notDataFrame).1.mpr rfl,
   (transform_shape_errors baseCfg clientAB PyInput.notDataFrame).2 rfl⟩

/-- Claim C10: with the features configured as an empty set of flags the
per-query transform always fails (the reduce over bitwise OR has no
elements and no initial value) and issues no search request. -/
theorem empty_feature_set_fails (c : ChatNoirRetrieve)
    (h : c.features = FeaturesConfig.set []) (k : Client)
    (topic : DataFrame) :
    (∀ d, (transformQuery c k topic).1 ≠ Except.ok d) ∧
    (transformQuery c k topic).2 = 0 := by
  have hred : reduceFeatures c.features = Except.error Err.reduceEmpty := by
    rw [h]
    rfl
  constructor
  · intro d hd
    unfold transformQuery at hd
    split at hd
    · simp at hd
    · simp only [] at hd
      split at hd
      · simp at hd
      · split at hd
        · simp at hd
        · rename_i feats hfeats
          rw [hred] at hfeats
          exact absurd hfeats (by simp)
  · unfold transformQuery
    split
    · rfl
    · simp only []
      cases lookupRow ((topic.rows.headD [])) "query" with
      | none => rfl
      | some q =>
        rw [hred]

/-- Witness for claim C10 at a concrete empty-set configuration and a
valid one-row topic: the per-query transform does not succeed and makes no
search call. -/
theorem empty_feature_set_fails_witness :
    (transformQuery cfgEmptyFeat clientAB topicOne).1 ≠
      Except.ok (dfOfRows []) ∧
    (transformQuery cfgEmptyFeat clientAB topicOne).2 = 0 :=
  ⟨(empty_feature_set_fails cfgEmptyFeat rfl clientAB topicOne).1 (dfOfRows []),
   (empty_feature_set_fails cfgEmptyFeat rfl clientAB topicOne).2⟩

end ChatNoir